import Mathlib

/-!
Verification development for the Berbel range-hood BLE protocol layer
(`custom_components/berbel/berbel_ble/`): the command codec, the status
parsers (modern and legacy), the device model, and the connection-manager /
retry logic of the client, embedded shallowly as executable Lean functions.

Byte buffers are `List ℕ` (Python `bytes` entries are in `[0,256)`; theorems
carry that bound as a hypothesis where the arithmetic needs it).  Fallible
Python code (raising `ValueError`, `IndexError`, `BleakError`) is embedded in
`Except PyError`.  Python `float` arithmetic (`int(p * 2.55)` and friends) is
embedded exactly: an IEEE-754 binary64 value denotes a rational number, and
each arithmetic operator rounds its exact rational result to 53 significant
bits with round-to-nearest, ties-to-even.  Rationals are represented as
unnormalised fractions (`Frac`) so that every operation reduces inside the
kernel.
-/

namespace Berbel

/-- Error taxonomy of the Python code: `ValueError` (invalid argument),
`IndexError` (indexing past a `bytes` buffer), `BleakError` (transport
layer), `RuntimeError`. -/
inductive PyError where
  | valueError (msg : String)
  | indexError
  | bleakError (code : ℕ)
  | runtimeError
deriving DecidableEq, Repr

/-- `isinstance(e, BleakError)`: only transport-layer errors. -/
def PyError.isBleak : PyError → Bool
  | .bleakError _ => true
  | _ => false

/-! ## Exact IEEE-754 binary64 arithmetic

A binary64 value is represented by the exact (unnormalised) fraction it
denotes.  Rounding a rational to binary64 normalises its magnitude into
`[2^52, 2^53)` by repeated doubling/halving, rounds the significand to the
nearest integer (ties to even), and scales back.  Subnormals and overflow
are far outside the magnitudes this code base computes with (all values lie
between `2^-9` and `2^16`), so the fuel of 400 always suffices. -/

/-- An unnormalised fraction `n / d` with positive denominator.  All
constructions below keep `d` positive. -/
structure Frac where
  n : ℤ
  d : ℕ
deriving DecidableEq, Repr

/-- Round `n / d` (`d > 0`) to the nearest integer, ties to even. -/
def rne (n : ℤ) (d : ℕ) : ℤ :=
  let f := n.fdiv d
  let twice := 2 * (n - f * d)
  if twice < (d : ℤ) then f
  else if (d : ℤ) < twice then f + 1
  else if f % 2 = 0 then f else f + 1

/-- Normalise a positive fraction `n / d` to `n' / d' * 2^e` with
`n' / d' ∈ [2^52, 2^53)`, by fuelled doubling/halving. -/
def normLoop : ℕ → ℤ → ℕ → ℤ → ℤ × ℕ × ℤ
  | 0, n, d, e => (n, d, e)
  | fuel + 1, n, d, e =>
    if n < 2 ^ 52 * d then normLoop fuel (2 * n) d (e - 1)
    else if 2 ^ 53 * d ≤ n then normLoop fuel n (2 * d) (e + 1)
    else (n, d, e)

/-- Round an exact rational to the binary64 value nearest to it
(round-to-nearest, ties-to-even). -/
def roundDouble (q : Frac) : Frac :=
  if q.n = 0 then ⟨0, 1⟩
  else
    let nde := normLoop 400 (q.n.natAbs : ℤ) q.d 0
    let s := rne nde.1 nde.2.1
    let e := nde.2.2
    let mag : Frac := if 0 ≤ e then ⟨s * 2 ^ e.toNat, 1⟩ else ⟨s, 2 ^ (-e).toNat⟩
    if q.n < 0 then ⟨-mag.n, mag.d⟩ else mag

/-- Python float multiplication: exact product, rounded to binary64. -/
def pyMul (a b : Frac) : Frac := roundDouble ⟨a.n * b.n, a.d * b.d⟩

/-- Python float (true) division by a nonzero value: exact quotient,
rounded to binary64. -/
def pyDiv (a b : Frac) : Frac :=
  roundDouble (if 0 ≤ b.n then ⟨a.n * b.d, a.d * b.n.natAbs⟩
               else ⟨-(a.n * b.d), a.d * b.n.natAbs⟩)

/-- Python `int()` on a float: truncation toward zero. -/
def pyTrunc (q : Frac) : ℤ :=
  if 0 ≤ q.n then q.n.fdiv q.d else -((-q.n).fdiv q.d)

/-- The binary64 value of the Python literal `2.55` (the double nearest to
`51/20`). -/
def lit2_55 : Frac := roundDouble ⟨51, 20⟩

/-- `int(p * 2.55)` as the Python code computes it for an `int` `p`
(conversion of `p` to binary64 is exact for `|p| < 2^53`). -/
def scaleBrightness (p : ℤ) : ℤ := pyTrunc (pyMul ⟨p, 1⟩ lit2_55)

/-- `int(b / 255 * 100)` as the Python code computes it (left-to-right:
float division first, then float multiplication, then truncation). -/
def decodePct (b : ℕ) : ℤ := pyTrunc (pyMul (pyDiv ⟨b, 1⟩ ⟨255, 1⟩) ⟨100, 1⟩)

/-- `int(p * 255 / 100)` as the Python code computes it (`p * 255` is exact
integer arithmetic; the division is float division). -/
def colorByte (p : ℤ) : ℤ := pyTrunc (pyDiv ⟨p * 255, 1⟩ ⟨100, 1⟩)

/-! ## Command codec (`commands.py`) -/

/-- The 31-byte template of `create_light_brightness_command`:
`bytearray.fromhex("0163" + 58 * "0")`. -/
def BRIGHTNESS_TEMPLATE : List ℕ := [0x01, 0x63] ++ List.replicate 29 0

/-- One `if x is not None:` block of `create_light_brightness_command`:
leave the command unchanged when no value is given; otherwise validate the
byte value into `[0,255]` (raising `ValueError` with the given message)
and write it at the given offset. -/
def applyBrightnessByte (pos : ℕ) (msg : String) (cmd : List ℕ) :
    Option ℤ → Except PyError (List ℕ)
  | none => pure cmd
  | some t =>
    if 0 ≤ t ∧ t ≤ 255 then pure (cmd.set pos t.toNat)
    else Except.error (.valueError msg)

/-- `create_light_brightness_command(top_brightness, bottom_brightness)`:
starts from the template, writes the validated top value at offset 5 and
then the validated bottom value at offset 4. -/
def create_light_brightness_command (top_brightness bottom_brightness : Option ℤ) :
    Except PyError (List ℕ) := do
  let c₁ ← applyBrightnessByte 5 "top_brightness must be between 0 and 255"
    BRIGHTNESS_TEMPLATE top_brightness
  applyBrightnessByte 4 "bottom_brightness must be between 0 and 255" c₁ bottom_brightness

/-- One `if x is not None:` block of
`create_light_brightness_command_from_percentage`: pass `None` through;
otherwise validate the percentage into `[0,100]` (raising `ValueError`
with the given message) and scale it with `int(percentage * 2.55)`. -/
def scalePercentage (msg : String) : Option ℤ → Except PyError (Option ℤ)
  | none => pure none
  | some p =>
    if 0 ≤ p ∧ p ≤ 100 then pure (some (scaleBrightness p))
    else Except.error (.valueError msg)

/-- `create_light_brightness_command_from_percentage(top, bottom)`:
validates and scales each given percentage, then delegates to
`create_light_brightness_command`. -/
def create_light_brightness_command_from_percentage (top_percentage bottom_percentage : Option ℤ) :
    Except PyError (List ℕ) := do
  let tb ← scalePercentage "top_percentage must be between 0 and 100" top_percentage
  let bb ← scalePercentage "bottom_percentage must be between 0 and 100" bottom_percentage
  create_light_brightness_command tb bb

/-- `validate_command_length(command)`: raises `ValueError` unless the
command is exactly 31 bytes. -/
def validate_command_length (command : List ℕ) : Except PyError Unit :=
  if command.length = 31 then .ok ()
  else .error (.valueError "Command must be 31 bytes long")

/-! ## Device model (`models.py`) -/

/-- The `BerbelDevice` dataclass fields. -/
structure BerbelDevice where
  name : String
  address : String
  light_top_on : Bool
  light_bottom_on : Bool
  light_top_brightness : ℤ
  light_bottom_brightness : ℤ
  light_top_color : ℤ
  light_bottom_color : ℤ
  fan_level : ℤ
  fan_postrun_active : Bool
deriving DecidableEq, Repr

/-- `BerbelDevice(...)` construction including `__post_init__`: the four
percentage fields are clamped into `[0,100]` and `fan_level` into `[0,4]`
with `max(lo, min(hi, x))`. -/
def mkBerbelDevice (name address : String) (light_top_on light_bottom_on : Bool)
    (light_top_brightness light_bottom_brightness light_top_color light_bottom_color
     fan_level : ℤ) (fan_postrun_active : Bool) : BerbelDevice where
  name := name
  address := address
  light_top_on := light_top_on
  light_bottom_on := light_bottom_on
  light_top_brightness := max 0 (min 100 light_top_brightness)
  light_bottom_brightness := max 0 (min 100 light_bottom_brightness)
  light_top_color := max 0 (min 100 light_top_color)
  light_bottom_color := max 0 (min 100 light_bottom_color)
  fan_level := max 0 (min 4 fan_level)
  fan_postrun_active := fan_postrun_active

/-- `BerbelDevice(name=..., address=...)` with all other fields left at
their dataclass defaults, as `update_device` constructs it. -/
def defaultDevice (name address : String) : BerbelDevice :=
  mkBerbelDevice name address false false 0 0 0 0 0 false

/-! ## Status decoder (`parser.py`) -/

/-- Byte positions, from `parser.py`. -/
def STATUS_FAN_LEVEL_1_BYTE : ℕ := 0
def STATUS_FAN_LEVEL_2_4_BYTE : ℕ := 1
def STATUS_LIGHT_TOP_BYTE : ℕ := 2
def STATUS_LIGHT_BOTTOM_BYTE : ℕ := 4
def STATUS_POSTRUN_BYTE : ℕ := 5
def BRIGHTNESS_BOTTOM_BYTE : ℕ := 4
def BRIGHTNESS_TOP_BYTE : ℕ := 5
def COLOR_BOTTOM_BYTE : ℕ := 6
def COLOR_TOP_BYTE : ℕ := 7

/-- Modelled from the spec: `berbel_ble/const.py` is not among the sources;
the well-known status byte constants are taken from the byte layout
documented in `parser.py` (level 1 at byte 0 is `0x10`; levels 2-4 at
byte 1 are `0x10`, `0x18`, `0x19`; light mask `0x10`; postrun mask
`0x90`).  The claims settled here depend on the decode structure, not on
these particular values. -/
def FAN_LEVEL_1 : ℕ := 0x10
def FAN_LEVEL_2 : ℕ := 0x10
def FAN_LEVEL_3 : ℕ := 0x18
def FAN_LEVEL_4 : ℕ := 0x19
def LIGHT_ON_MASK : ℕ := 0x10
def POSTRUN_MASK : ℕ := 0x90

/-- Python `buf[i]` on a `bytes` buffer: the byte, or `IndexError` past the
end (the code only uses constant non-negative indices). -/
def bIdx (b : List ℕ) (i : ℕ) : Except PyError ℕ :=
  match b[i]? with
  | some v => .ok v
  | none => .error .indexError

/-- `_parse_light_status(status)`: bit-masked test of status bytes 2
(top) and 4 (bottom); raises `IndexError` on a buffer too short. -/
def parse_light_status (status : List ℕ) : Except PyError (Bool × Bool) := do
  let t ← bIdx status STATUS_LIGHT_TOP_BYTE
  let b ← bIdx status STATUS_LIGHT_BOTTOM_BYTE
  pure ((t.land LIGHT_ON_MASK) != 0, (b.land LIGHT_ON_MASK) != 0)

/-- `_parse_fan_level(status)`: byte 0 is compared against `FAN_LEVEL_1`
first; only when that does not match is byte 1 compared against
`FAN_LEVEL_2`, `FAN_LEVEL_3`, `FAN_LEVEL_4`; otherwise 0. -/
def parse_fan_level (status : List ℕ) : Except PyError ℕ := do
  let b₀ ← bIdx status STATUS_FAN_LEVEL_1_BYTE
  if b₀ = FAN_LEVEL_1 then pure 1
  else do
    let b₁ ← bIdx status STATUS_FAN_LEVEL_2_4_BYTE
    if b₁ = FAN_LEVEL_2 then pure 2
    else if b₁ = FAN_LEVEL_3 then pure 3
    else if b₁ = FAN_LEVEL_4 then pure 4
    else pure 0

/-- `_parse_postrun_status(status)`: bit-masked test of status byte 5. -/
def parse_postrun_status (status : List ℕ) : Except PyError Bool := do
  let b ← bIdx status STATUS_POSTRUN_BYTE
  pure ((b.land POSTRUN_MASK) == POSTRUN_MASK)

/-- `_parse_brightness(brightness)`: total; bytes 4 (bottom) and 5 (top)
rescaled with `int(value / 255 * 100)` when the buffer has at least 6
bytes, `(0, 0)` otherwise.  Returns `(bottom, top)`. -/
def parse_brightness (brightness : List ℕ) : ℤ × ℤ :=
  if max BRIGHTNESS_BOTTOM_BYTE BRIGHTNESS_TOP_BYTE + 1 ≤ brightness.length then
    (decodePct (brightness.getD BRIGHTNESS_BOTTOM_BYTE 0),
     decodePct (brightness.getD BRIGHTNESS_TOP_BYTE 0))
  else (0, 0)

/-- `_parse_colors(colors)`: total; bytes 6 (bottom) and 7 (top) rescaled
with `int(value / 255 * 100)` when the buffer has at least 8 bytes,
`(0, 0)` otherwise.  Returns `(bottom, top)`. -/
def parse_colors (colors : List ℕ) : ℤ × ℤ :=
  if max COLOR_BOTTOM_BYTE COLOR_TOP_BYTE + 1 ≤ colors.length then
    (decodePct (colors.getD COLOR_BOTTOM_BYTE 0),
     decodePct (colors.getD COLOR_TOP_BYTE 0))
  else (0, 0)

/-- The dictionary produced by `parse_status` (also the shape of the legacy
parser's result). -/
structure ParsedStatus where
  light_top_on : Bool
  light_bottom_on : Bool
  light_top_brightness : ℤ
  light_bottom_brightness : ℤ
  light_top_color : ℤ
  light_bottom_color : ℤ
  fan_level : ℤ
  fan_postrun_active : Bool
deriving DecidableEq, Repr

/-- `parse_status(status, brightness, colors)`: light status first, then
fan level, then postrun, then the total brightness/color decoders. -/
def parse_status (status brightness colors : List ℕ) : Except PyError ParsedStatus := do
  let lights ← parse_light_status status
  let fan ← parse_fan_level status
  let postrun ← parse_postrun_status status
  let bri := parse_brightness brightness
  let col := parse_colors colors
  pure { light_top_on := lights.1
         light_bottom_on := lights.2
         light_top_brightness := bri.2
         light_bottom_brightness := bri.1
         light_top_color := col.2
         light_bottom_color := col.1
         fan_level := (fan : ℤ)
         fan_postrun_active := postrun }

/-- `setattr(device, key, value)` for each parsed entry: plain field
assignment, which does not re-run the dataclass `__post_init__` clamping. -/
def applyParsed (device : BerbelDevice) (p : ParsedStatus) : BerbelDevice :=
  { device with
    light_top_on := p.light_top_on
    light_bottom_on := p.light_bottom_on
    light_top_brightness := p.light_top_brightness
    light_bottom_brightness := p.light_bottom_brightness
    light_top_color := p.light_top_color
    light_bottom_color := p.light_bottom_color
    fan_level := p.fan_level
    fan_postrun_active := p.fan_postrun_active }

/-! ## Legacy advertisement parser (`legacy_parser.py`)

The payload is processed as a hex string (`List Char`); `bytes` input is
first rendered to lowercase hex by `bytes.hex()`.  `int(c, 16)` on a
character that is not a hex digit raises `ValueError`, which the outer
`try` of `parse_legacy_manufacturer_data` converts to `None`. -/

/-- Value of one lowercase hex digit (the code lowercases string input, and
`bytes.hex()` produces lowercase). -/
def hexVal (c : Char) : Option ℕ :=
  if '0' ≤ c ∧ c ≤ '9' then some (c.toNat - 48)
  else if 'a' ≤ c ∧ c ≤ 'f' then some (c.toNat - 87)
  else none

/-- `int(hex_str[i], 16)`: the digit value, or `ValueError`. -/
def hexCharVal (c : Char) : Except PyError ℕ :=
  match hexVal c with
  | some v => .ok v
  | none => .error (.valueError "invalid literal for int with base 16")

/-- `_nibble(hex_str, start)`: 0 when the string is too short, otherwise
the value of the single hex character at `start`. -/
def legacyNibble (s : List Char) (start : ℕ) : Except PyError ℕ :=
  if s.length ≤ start then .ok 0
  else hexCharVal (s.getD start '0')

/-- `_byte(hex_str, start)`: 0 when the string is too short, otherwise the
value of the two hex characters at `start`, `start+1`. -/
def legacyByte (s : List Char) (start : ℕ) : Except PyError ℕ := do
  if s.length ≤ start + 1 then pure 0
  else do
    let hi ← hexCharVal (s.getD start '0')
    let lo ← hexCharVal (s.getD (start + 1) '0')
    pure (16 * hi + lo)

/-- The body of `parse_legacy_manufacturer_data` inside its `try`: `None`
for fewer than 18 hex characters; otherwise fan level from the byte at
offset 12 capped to 3, flag nibbles at 14-17 and 22-23, and the mapping to
`BerbelDevice` fields (`illumination OR effectLight` into both light
flags, trailing into postrun, all percentages 0). -/
def parseLegacyCore (s : List Char) : Except PyError (Option ParsedStatus) := do
  if s.length < 18 then pure none
  else do
    let fanRaw ← legacyByte s 12
    let fan := if fanRaw > 3 then 3 else fanRaw
    let _n14 ← legacyNibble s 14
    let _n15 ← legacyNibble s 15
    let n16 ← legacyNibble s 16
    let n17 ← legacyNibble s 17
    let _n22 ← legacyNibble s 22
    let n23 ← legacyNibble s 23
    let hasActiveIllumination := (n17.land 1) != 0
    let hasActiveTrailing := (n17.land 2) != 0
    let _hasActiveEffect := (n16.land 2) != 0
    let hasEffectLight := (n23.land 1) != 0
    pure (some
      { fan_level := (fan : ℤ)
        fan_postrun_active := hasActiveTrailing
        light_top_on := hasActiveIllumination || hasEffectLight
        light_bottom_on := hasActiveIllumination || hasEffectLight
        light_top_brightness := 0
        light_bottom_brightness := 0
        light_top_color := 0
        light_bottom_color := 0 })

/-- `parse_legacy_manufacturer_data`: the `try/except` maps any raised
error to `None`. -/
def parse_legacy_manufacturer_data (s : List Char) : Option ParsedStatus :=
  match parseLegacyCore s with
  | .ok r => r
  | .error _ => none

/-- One lowercase hex digit character for `n < 16`. -/
def hexDigitChar (n : ℕ) : Char :=
  if n < 10 then Char.ofNat (48 + n) else Char.ofNat (87 + n)

/-- `bytes.hex()` of a single byte: two lowercase hex characters. -/
def byteToHex (b : ℕ) : List Char := [hexDigitChar (b / 16 % 16), hexDigitChar (b % 16)]

/-- `manufacturer_data.hex()`: the lowercase hex rendering of a byte
buffer. -/
def bytesToHex (data : List ℕ) : List Char := (data.map byteToHex).flatten

/-- `parse_legacy_manufacturer_data` on a `bytes` payload. -/
def parse_legacy_from_bytes (data : List ℕ) : Option ParsedStatus :=
  parse_legacy_manufacturer_data (bytesToHex data)

/-! ## Connection manager and retry policy (`client.py`)

`BerbelBluetoothDeviceData` holds at most one live connection
(`_active_client` / `_active_device`, modelled together as one optional
`Conn`), a `_disconnect_pending` flag and the idle-timer deadline.
Operations also produce a trace of externally visible events (transport
connects, teardowns, timer arming, sleeps).  Connection establishment is
modelled as succeeding; per-attempt failures of `update_device` are
injected at the characteristic reads. -/

/-- A live transport connection: which peer it is to, and the transport's
`is_connected` flag. -/
structure Conn where
  id : ℕ
  addr : String
  isConnected : Bool
deriving DecidableEq, Repr

/-- The connection-manager state of `BerbelBluetoothDeviceData`. -/
structure ConnState where
  active : Option Conn
  disconnectPending : Bool
  timerDeadline : Option ℕ
deriving DecidableEq, Repr

/-- Externally visible connection-manager events, in order. -/
inductive CEvent where
  | teardown
  | connect (addr : String)
  | armTimer (deadline : ℕ)
  | sleep (seconds : ℕ)
deriving DecidableEq, Repr

/-- `CONNECTION_TIMEOUT`: the idle window, 20 time units. -/
def CONNECTION_TIMEOUT : ℕ := 20

/-- `_disconnect_internal()`: cancels the idle timer; when a client is
held, disconnects it (the transport outcome `dres` is swallowed by the
`try/except`, and the `finally` clears all connection fields either
way). -/
def disconnectInternal (dres : Except ℕ Unit) (st : ConnState) : ConnState × List CEvent :=
  match st.active with
  | none => ({ st with timerDeadline := none }, [])
  | some _ =>
    match dres with
    | .ok _ => ({ active := none, disconnectPending := false, timerDeadline := none }, [.teardown])
    | .error _ => ({ active := none, disconnectPending := false, timerDeadline := none }, [.teardown])

/-- `_schedule_disconnect()`: cancel any pending timer and arm the idle
timer for `now + CONNECTION_TIMEOUT`. -/
def scheduleDisconnect (now : ℕ) (st : ConnState) : ConnState × List CEvent :=
  ({ st with timerDeadline := some (now + CONNECTION_TIMEOUT) },
   [.armTimer (now + CONNECTION_TIMEOUT)])

/-- The tail of `_ensure_connection`: `establish_connection` to the peer,
cache it, clear `_disconnect_pending`, arm the idle timer. -/
def establishConnection (devAddr : String) (newId now : ℕ) : Conn × ConnState × List CEvent :=
  let conn : Conn := ⟨newId, devAddr, true⟩
  let st : ConnState := { active := some conn, disconnectPending := false, timerDeadline := none }
  let s := scheduleDisconnect now st
  (conn, s.1, [.connect devAddr] ++ s.2)

/-- `_ensure_connection(ble_device)`: reuse the held connection when it is
connected, to the same address, and not pending teardown (only re-arming
the idle timer); otherwise tear down any held connection first and only
then establish a new one. -/
def ensureConnection (dres : Except ℕ Unit) (st : ConnState) (devAddr : String)
    (newId now : ℕ) : Conn × ConnState × List CEvent :=
  match st.active with
  | some c =>
    if c.isConnected = true ∧ c.addr = devAddr ∧ st.disconnectPending = false then
      let s := scheduleDisconnect now st
      (c, s.1, s.2)
    else
      let td := disconnectInternal dres st
      let e := establishConnection devAddr newId now
      (e.1, e.2.1, td.2 ++ e.2.2)
  | none => establishConnection devAddr newId now

/-- The outcome injected into one `update_device` attempt: either a
transport (`BleakError`) failure while reading the characteristics, or
three successfully read buffers (whose decode may still fail). -/
inductive AttemptInput where
  | transportErr (code : ℕ)
  | bufs (status brightness colors : List ℕ)

/-- The retry loop of `update_device` (`for attempt in range(1,
max_retries+1)`), recursing on the number of remaining attempts: each
cycle acquires a connection and reads/decodes; a `BleakError` tears the
connection down immediately; a 1-unit sleep separates attempts when more
remain; when the loop exhausts, the connection is torn down and the last
error is re-raised (`RuntimeError` if none). -/
def updateLoop (inputs : ℕ → AttemptInput) (devName devAddr : String) :
    ℕ → ℕ → ConnState → Option PyError →
    Except PyError BerbelDevice × ConnState × List CEvent
  | 0, _attempt, st, lastErr =>
    let td := disconnectInternal (.ok ()) st
    (.error (lastErr.getD .runtimeError), td.1, td.2)
  | remaining + 1, attempt, st, _lastErr =>
    let ec := ensureConnection (.ok ()) st devAddr attempt attempt
    match inputs attempt with
    | .transportErr code =>
      let td := disconnectInternal (.ok ()) ec.2.1
      let pause : List CEvent := if remaining > 0 then [.sleep 1] else []
      let rest := updateLoop inputs devName devAddr remaining (attempt + 1) td.1
        (some (.bleakError code))
      (rest.1, rest.2.1, ec.2.2 ++ td.2 ++ pause ++ rest.2.2)
    | .bufs s b c =>
      match parse_status s b c with
      | .ok parsed =>
        (.ok (applyParsed (defaultDevice devName devAddr) parsed), ec.2.1, ec.2.2)
      | .error pe =>
        let pause : List CEvent := if remaining > 0 then [.sleep 1] else []
        let rest := updateLoop inputs devName devAddr remaining (attempt + 1) ec.2.1 (some pe)
        (rest.1, rest.2.1, ec.2.2 ++ pause ++ rest.2.2)

/-- `update_device(ble_device, max_retries)` on a modern peer. -/
def update_device (devName devAddr : String) (max_retries : ℕ)
    (inputs : ℕ → AttemptInput) (st₀ : ConnState) :
    Except PyError BerbelDevice × ConnState × List CEvent :=
  updateLoop inputs devName devAddr max_retries 1 st₀ none

/-! ## Write paths of the client (`client.py`)

Each write path is modelled by the frames it transmits, each tagged with
whether `validate_command_length` ran on it before the write. -/

/-- One transmitted frame, tagged with whether `validate_command_length`
was called on it before the `write_gatt_char`. -/
structure WriteEv where
  frame : List ℕ
  validatedBefore : Bool
deriving DecidableEq, Repr

/-- `_execute_command(ble_device, command)`: validates the command length
first, then writes the command. -/
def executeCommandWrites (command : List ℕ) : Except PyError (List WriteEv) := do
  let _ ← validate_command_length command
  pure [⟨command, true⟩]

/-- `_execute_command_with_status(ble_device, command)`: also validates
the command length before writing. -/
def executeCommandWithStatusWrites (command : List ℕ) : Except PyError (List WriteEv) := do
  let _ ← validate_command_length command
  pure [⟨command, true⟩]

/-- `set_light_top_brightness(ble_device, p)`: validates `p` into
`[0,100]`, reads the status (`device` is the decoded snapshot), builds the
brightness command preserving the bottom light, and writes it directly
with `client.write_gatt_char` - without calling
`validate_command_length`. -/
def setLightTopBrightnessWrites (brightness_percentage : ℤ) (device : BerbelDevice) :
    Except PyError (List WriteEv) :=
  if 0 ≤ brightness_percentage ∧ brightness_percentage ≤ 100 then do
    let current_bottom : ℤ := if device.light_bottom_on then device.light_bottom_brightness else 0
    let command ← create_light_brightness_command_from_percentage
      (some brightness_percentage) (some current_bottom)
    pure [⟨command, false⟩]
  else .error (.valueError "brightness_percentage must be between 0 and 100")

/-- The frame `set_light_top_color(ble_device, p)` writes back: the read
colors frame with byte 7 overwritten by `int(p * 255 / 100)` when the
frame is at least 8 bytes long, and unchanged otherwise. -/
def setLightTopColorFrame (color_percentage : ℤ) (current_colors : List ℕ) :
    Except PyError (List ℕ) :=
  if 0 ≤ color_percentage ∧ color_percentage ≤ 100 then
    let color_value := (colorByte color_percentage).toNat
    .ok (if COLOR_TOP_BYTE < current_colors.length then
           current_colors.set COLOR_TOP_BYTE color_value
         else current_colors)
  else .error (.valueError "color_percentage must be between 0 and 100")

/-- The frame `set_light_bottom_color(ble_device, p)` writes back: byte 6
overwritten when the frame is at least 7 bytes long, unchanged
otherwise. -/
def setLightBottomColorFrame (color_percentage : ℤ) (current_colors : List ℕ) :
    Except PyError (List ℕ) :=
  if 0 ≤ color_percentage ∧ color_percentage ≤ 100 then
    let color_value := (colorByte color_percentage).toNat
    .ok (if COLOR_BOTTOM_BYTE < current_colors.length then
           current_colors.set COLOR_BOTTOM_BYTE color_value
         else current_colors)
  else .error (.valueError "color_percentage must be between 0 and 100")

/-- The frame `set_both_lights_color(ble_device, pt, pb)` writes back:
bytes 6 and 7 overwritten when the frame is at least 8 bytes long,
unchanged otherwise. -/
def setBothLightsColorFrame (top_color_percentage bottom_color_percentage : ℤ)
    (current_colors : List ℕ) : Except PyError (List ℕ) :=
  if 0 ≤ top_color_percentage ∧ top_color_percentage ≤ 100 ∧
     0 ≤ bottom_color_percentage ∧ bottom_color_percentage ≤ 100 then
    let top_color_value := (colorByte top_color_percentage).toNat
    let bottom_color_value := (colorByte bottom_color_percentage).toNat
    .ok (if max COLOR_BOTTOM_BYTE COLOR_TOP_BYTE < current_colors.length then
           (current_colors.set COLOR_BOTTOM_BYTE bottom_color_value).set
             COLOR_TOP_BYTE top_color_value
         else current_colors)
  else .error (.valueError "Color values must be between 0 and 100")

/-- `set_light_top_color` as a write path: the written frame is not run
through `validate_command_length`. -/
def setLightTopColorWrites (color_percentage : ℤ) (current_colors : List ℕ) :
    Except PyError (List WriteEv) := do
  let f ← setLightTopColorFrame color_percentage current_colors
  pure [⟨f, false⟩]

/-- The spec's stated brightness scaling, `round(percent * 2.55)`, read as
the nearest integer to the exact value `51p/20` (written as
`⌊(2·51p + 20) / 40⌋`, i.e. rounding halves up; at the inputs where this
development compares it with the source the value is an exact integer, so
every rounding convention agrees). -/
def specRoundScale (p : ℤ) : ℤ := (2 * (51 * p) + 20).fdiv 40

/-! ## Characterisation of the float arithmetic

The Python code computes its byte scalings in binary64 float arithmetic;
over the full (finite) domains these computations admit exact integer
descriptions, established by evaluation. -/

set_option maxRecDepth 40000 in
/-- `int(p * 2.55)` equals `⌊51p/20⌋` for `p ∈ [0,99]`, but `254` at
`p = 100`: the float product `100 * 2.55` is `254.99999999999997`, which
truncates to 254, not 255. -/
theorem scaleBrightness_char :
    ∀ p : ℕ, p < 101 →
      scaleBrightness (p : ℤ) = ((if p = 100 then 254 else 51 * p / 20 : ℕ) : ℤ) := by
  decide

set_option maxRecDepth 40000 in
/-- `int(b / 255 * 100)` coincides with `⌊100b/255⌋` for every byte. -/
theorem decodePct_char : ∀ b : ℕ, b < 256 → decodePct b = ((100 * b / 255 : ℕ) : ℤ) := by
  decide

set_option maxRecDepth 40000 in
/-- `int(p * 255 / 100)` coincides with `⌊255p/100⌋` for `p ∈ [0,100]`. -/
theorem colorByte_char : ∀ p : ℕ, p < 101 → colorByte (p : ℤ) = ((255 * p / 100 : ℕ) : ℤ) := by
  decide

/-- Decoded percentages lie in `[0,100]` for byte input. -/
theorem decodePct_bounds (b : ℕ) (hb : b < 256) : 0 ≤ decodePct b ∧ decodePct b ≤ 100 := by
  rw [decodePct_char b hb]
  refine ⟨Int.ofNat_nonneg _, ?_⟩
  have h : 100 * b / 255 ≤ 100 := by
    have : 100 * b ≤ 100 * 255 := by omega
    calc 100 * b / 255 ≤ 100 * 255 / 255 := Nat.div_le_div_right this
    _ = 100 := by norm_num
  exact_mod_cast h

/-- The range invariant the claim states for a constructed device: all four
percentage fields in `[0,100]` and the fan level in `[0,4]`. -/
def DeviceInRange (d : BerbelDevice) : Prop :=
  0 ≤ d.light_top_brightness ∧ d.light_top_brightness ≤ 100 ∧
  0 ≤ d.light_bottom_brightness ∧ d.light_bottom_brightness ≤ 100 ∧
  0 ≤ d.light_top_color ∧ d.light_top_color ≤ 100 ∧
  0 ≤ d.light_bottom_color ∧ d.light_bottom_color ≤ 100 ∧
  0 ≤ d.fan_level ∧ d.fan_level ≤ 4

/-- The same ranges on a parsed status dictionary. -/
def ParsedInRange (p : ParsedStatus) : Prop :=
  0 ≤ p.light_top_brightness ∧ p.light_top_brightness ≤ 100 ∧
  0 ≤ p.light_bottom_brightness ∧ p.light_bottom_brightness ≤ 100 ∧
  0 ≤ p.light_top_color ∧ p.light_top_color ≤ 100 ∧
  0 ≤ p.light_bottom_color ∧ p.light_bottom_color ≤ 100 ∧
  0 ≤ p.fan_level ∧ p.fan_level ≤ 4

instance (d : BerbelDevice) : Decidable (DeviceInRange d) := by
  unfold DeviceInRange; infer_instance

instance (p : ParsedStatus) : Decidable (ParsedInRange p) := by
  unfold ParsedInRange; infer_instance

/-- The fresh manager state of a newly constructed client. -/
def initState : ConnState := ⟨none, false, none⟩

/-! ## Proof development -/

lemma bIdx_ok (s : List ℕ) (i : ℕ) (h : i < s.length) : bIdx s i = .ok (s.getD i 0) := by
  unfold bIdx
  rw [List.getElem?_eq_getElem h]
  rw [List.getD_eq_getElem s 0 h]

lemma bIdx_err (s : List ℕ) (i : ℕ) (h : s.length ≤ i) : bIdx s i = .error .indexError := by
  unfold bIdx
  rw [List.getElem?_eq_none h]

lemma ok_bind {α β : Type} (a : α) (f : α → Except PyError β) :
    (Except.ok a >>= f : Except PyError β) = f a := rfl

lemma err_bind {α β : Type} (e : PyError) (f : α → Except PyError β) :
    (Except.error e >>= f : Except PyError β) = .error e := rfl

lemma pure_bind_except {α β : Type} (a : α) (f : α → Except PyError β) :
    ((pure a : Except PyError α) >>= f) = f a := rfl

lemma parse_fan_level_isOk (s : List ℕ) (h : 2 ≤ s.length) : ∃ n, parse_fan_level s = .ok n := by
  simp only [parse_fan_level, STATUS_FAN_LEVEL_1_BYTE, STATUS_FAN_LEVEL_2_4_BYTE,
    bIdx_ok s 0 (by omega), bIdx_ok s 1 (by omega), ok_bind]
  split
  · exact ⟨1, rfl⟩
  · split
    · exact ⟨2, rfl⟩
    · split
      · exact ⟨3, rfl⟩
      · split
        · exact ⟨4, rfl⟩
        · exact ⟨0, rfl⟩

/-- C5: the modern fan-level decode tests status byte 0 against the level-1
constant first; only when that does not match is status byte 1 compared
against the level-2, level-3 and level-4 constants, in that order; a buffer
matching neither decodes to level 0. -/
theorem fan_level_decode_order (s : List ℕ) (hlen : 2 ≤ s.length) :
    (s.getD 0 0 = FAN_LEVEL_1 → parse_fan_level s = .ok 1) ∧
    (s.getD 0 0 ≠ FAN_LEVEL_1 → s.getD 1 0 = FAN_LEVEL_2 → parse_fan_level s = .ok 2) ∧
    (s.getD 0 0 ≠ FAN_LEVEL_1 → s.getD 1 0 ≠ FAN_LEVEL_2 → s.getD 1 0 = FAN_LEVEL_3 →
      parse_fan_level s = .ok 3) ∧
    (s.getD 0 0 ≠ FAN_LEVEL_1 → s.getD 1 0 ≠ FAN_LEVEL_2 → s.getD 1 0 ≠ FAN_LEVEL_3 →
      s.getD 1 0 = FAN_LEVEL_4 → parse_fan_level s = .ok 4) ∧
    (s.getD 0 0 ≠ FAN_LEVEL_1 → s.getD 1 0 ≠ FAN_LEVEL_2 → s.getD 1 0 ≠ FAN_LEVEL_3 →
      s.getD 1 0 ≠ FAN_LEVEL_4 → parse_fan_level s = .ok 0) := by
  refine ⟨?_, ?_, ?_, ?_, ?_⟩ <;>
    intros <;>
    simp_all only [parse_fan_level, STATUS_FAN_LEVEL_1_BYTE, STATUS_FAN_LEVEL_2_4_BYTE,
      bIdx_ok s 0 (by omega), bIdx_ok s 1 (by omega), ok_bind, if_true, if_false,
       ne_eq, not_false_eq_true, ite_true, ite_false]
  all_goals rfl

/-- C5 witness: on `[0x10, 0x18]` the level-1 byte wins (level 1, even
though byte 1 would match level 3); on `[0, 0x18]` byte 1 decides (level
3). -/
theorem fan_level_decode_order_witness :
    parse_fan_level [0x10, 0x18] = .ok 1 ∧ parse_fan_level [0, 0x18] = .ok 3 := by
  have h1 := (fan_level_decode_order [0x10, 0x18] (by decide)).1 (by decide)
  have h2 := (fan_level_decode_order [0, 0x18] (by decide)).2.2.1 (by decide) (by decide) (by decide)
  exact ⟨h1, h2⟩

/-- C10: `parse_status` is partial in the status buffer: every status
buffer shorter than 6 bytes makes the decode fail with `IndexError`
instead of returning a default snapshot - unlike the brightness and colors
buffers, whose decoders degrade to `(0, 0)` on a short buffer. -/
theorem short_status_buffer_raises (status brightness colors : List ℕ)
    (hshort : status.length < 6) :
    parse_status status brightness colors = .error .indexError ∧
    (∀ b : List ℕ, b.length < 6 → parse_brightness b = (0, 0)) ∧
    (∀ c : List ℕ, c.length < 8 → parse_colors c = (0, 0)) := by
  refine ⟨?_, ?_, ?_⟩
  · by_cases h2 : 2 < status.length
    · by_cases h4 : 4 < status.length
      · -- length 5: light and fan succeed, postrun raises
        obtain ⟨n, hn⟩ := parse_fan_level_isOk status (by omega)
        simp only [parse_status, parse_light_status, parse_postrun_status,
          STATUS_LIGHT_TOP_BYTE, STATUS_LIGHT_BOTTOM_BYTE, STATUS_POSTRUN_BYTE,
          bIdx_ok status 2 (by omega), bIdx_ok status 4 (by omega),
          bIdx_err status 5 (by omega), hn, ok_bind, err_bind, pure_bind_except]
      · -- light bottom byte 4 raises
        simp only [parse_status, parse_light_status,
          STATUS_LIGHT_TOP_BYTE, STATUS_LIGHT_BOTTOM_BYTE,
          bIdx_ok status 2 (by omega), bIdx_err status 4 (by omega), ok_bind, err_bind]
    · -- light top byte 2 raises
      simp only [parse_status, parse_light_status, STATUS_LIGHT_TOP_BYTE,
        bIdx_err status 2 (by omega), ok_bind, err_bind]
  · intro b hb
    simp only [parse_brightness, BRIGHTNESS_BOTTOM_BYTE, BRIGHTNESS_TOP_BYTE]
    rw [if_neg (by omega)]
  · intro c hc
    simp only [parse_colors, COLOR_BOTTOM_BYTE, COLOR_TOP_BYTE]
    rw [if_neg (by omega)]

/-- C10 witness: the empty status buffer raises `IndexError`, while a
2-byte brightness buffer decodes to `(0, 0)`. -/
theorem short_status_buffer_raises_witness :
    parse_status [] [] [] = .error .indexError ∧ parse_brightness [1, 2] = (0, 0) := by
  have h := short_status_buffer_raises [] [] [] (by decide)
  exact ⟨h.1, h.2.1 [1, 2] (by decide)⟩

/-- C6: for a brightness buffer of length at least 6 the decoded
percentages are `⌊100·byte4/255⌋` (bottom) and `⌊100·byte5/255⌋` (top),
and for a colors buffer of length at least 8 they are `⌊100·byte6/255⌋`
(bottom) and `⌊100·byte7/255⌋` (top); shorter buffers decode to `(0, 0)`
without failing; brightness bytes `(_,_,_,_,128,191)` give bottom 50 and
top 74. -/
theorem brightness_color_decode (brightness colors : List ℕ)
    (hb : 6 ≤ brightness.length) (hc : 8 ≤ colors.length)
    (hb4 : brightness.getD 4 0 < 256) (hb5 : brightness.getD 5 0 < 256)
    (hc6 : colors.getD 6 0 < 256) (hc7 : colors.getD 7 0 < 256) :
    parse_brightness brightness =
      (((100 * brightness.getD 4 0 / 255 : ℕ) : ℤ), ((100 * brightness.getD 5 0 / 255 : ℕ) : ℤ)) ∧
    parse_colors colors =
      (((100 * colors.getD 6 0 / 255 : ℕ) : ℤ), ((100 * colors.getD 7 0 / 255 : ℕ) : ℤ)) ∧
    (∀ b : List ℕ, b.length < 6 → parse_brightness b = (0, 0)) ∧
    (∀ c : List ℕ, c.length < 8 → parse_colors c = (0, 0)) ∧
    parse_brightness [0, 0, 0, 0, 128, 191] = (50, 74) := by
  refine ⟨?_, ?_, ?_, ?_, ?_⟩
  · simp only [parse_brightness, BRIGHTNESS_BOTTOM_BYTE, BRIGHTNESS_TOP_BYTE]
    rw [if_pos (by omega)]
    rw [decodePct_char _ hb4, decodePct_char _ hb5]
  · simp only [parse_colors, COLOR_BOTTOM_BYTE, COLOR_TOP_BYTE]
    rw [if_pos (by omega)]
    rw [decodePct_char _ hc6, decodePct_char _ hc7]
  · intro b h
    simp only [parse_brightness, BRIGHTNESS_BOTTOM_BYTE, BRIGHTNESS_TOP_BYTE]
    rw [if_neg (by omega)]
  · intro c h
    simp only [parse_colors, COLOR_BOTTOM_BYTE, COLOR_TOP_BYTE]
    rw [if_neg (by omega)]
  · have h : parse_brightness [0, 0, 0, 0, 128, 191] = (decodePct 128, decodePct 191) := by
      simp [parse_brightness, BRIGHTNESS_BOTTOM_BYTE, BRIGHTNESS_TOP_BYTE]
    rw [h, decodePct_char 128 (by norm_num), decodePct_char 191 (by norm_num)]
    norm_num

/-- C6 witness: concrete instances of the long-buffer and short-buffer
brightness decodes. -/
theorem brightness_color_decode_witness :
    parse_brightness [9, 9, 9, 9, 128, 191] = (50, 74) ∧ parse_brightness [128, 191] = (0, 0) := by
  have h := brightness_color_decode [9, 9, 9, 9, 128, 191] [0, 0, 0, 0, 0, 0, 0, 0]
    (by norm_num) (by norm_num) (by norm_num) (by norm_num) (by norm_num) (by norm_num)
  refine ⟨?_, h.2.2.1 [128, 191] (by norm_num)⟩
  have h1 := h.1
  norm_num at h1
  exact h1

lemma parse_fan_level_le (s : List ℕ) (n : ℕ) (h : parse_fan_level s = .ok n) : n ≤ 4 := by
  simp only [parse_fan_level, STATUS_FAN_LEVEL_1_BYTE, STATUS_FAN_LEVEL_2_4_BYTE] at h
  cases h0 : bIdx s 0 with
  | error e => rw [h0] at h; simp [err_bind] at h
  | ok b0 =>
    rw [h0, ok_bind] at h
    split at h
    · cases h; omega
    · cases h1 : bIdx s 1 with
      | error e => rw [h1] at h; simp [err_bind] at h
      | ok b1 =>
        rw [h1, ok_bind] at h
        split at h
        · cases h; omega
        · split at h
          · cases h; omega
          · split at h
            · cases h; omega
            · cases h; omega

lemma getD_lt_of_mem {b : List ℕ} (hmem : ∀ x ∈ b, x < 256) {i : ℕ} (hi : i < b.length) :
    b.getD i 0 < 256 := by
  rw [List.getD_eq_getElem b 0 hi]
  exact hmem _ (List.getElem_mem hi)

lemma parse_brightness_bounds (b : List ℕ) (hmem : ∀ x ∈ b, x < 256) :
    0 ≤ (parse_brightness b).1 ∧ (parse_brightness b).1 ≤ 100 ∧
    0 ≤ (parse_brightness b).2 ∧ (parse_brightness b).2 ≤ 100 := by
  simp only [parse_brightness, BRIGHTNESS_BOTTOM_BYTE, BRIGHTNESS_TOP_BYTE]
  split
  · rename_i hlen
    have h4 := decodePct_bounds _ (getD_lt_of_mem hmem (by omega : 4 < b.length))
    have h5 := decodePct_bounds _ (getD_lt_of_mem hmem (by omega : 5 < b.length))
    exact ⟨h4.1, h4.2, h5.1, h5.2⟩
  · norm_num

lemma parse_colors_bounds (c : List ℕ) (hmem : ∀ x ∈ c, x < 256) :
    0 ≤ (parse_colors c).1 ∧ (parse_colors c).1 ≤ 100 ∧
    0 ≤ (parse_colors c).2 ∧ (parse_colors c).2 ≤ 100 := by
  simp only [parse_colors, COLOR_BOTTOM_BYTE, COLOR_TOP_BYTE]
  split
  · rename_i hlen
    have h6 := decodePct_bounds _ (getD_lt_of_mem hmem (by omega : 6 < c.length))
    have h7 := decodePct_bounds _ (getD_lt_of_mem hmem (by omega : 7 < c.length))
    exact ⟨h6.1, h6.2, h7.1, h7.2⟩
  · norm_num

lemma parse_status_in_range (s b c : List ℕ) (p : ParsedStatus)
    (hb : ∀ x ∈ b, x < 256) (hc : ∀ x ∈ c, x < 256)
    (h : parse_status s b c = .ok p) : ParsedInRange p := by
  simp only [parse_status] at h
  cases hl : parse_light_status s with
  | error e => rw [hl] at h; simp [err_bind] at h
  | ok lt =>
    rw [hl, ok_bind] at h
    cases hf : parse_fan_level s with
    | error e => rw [hf] at h; simp [err_bind] at h
    | ok n =>
      rw [hf, ok_bind] at h
      cases hp : parse_postrun_status s with
      | error e => rw [hp] at h; simp [err_bind] at h
      | ok post =>
        rw [hp, ok_bind] at h
        obtain ⟨hbb1, hbb2, hbb3, hbb4⟩ := parse_brightness_bounds b hb
        obtain ⟨hcc1, hcc2, hcc3, hcc4⟩ := parse_colors_bounds c hc
        have hn := parse_fan_level_le s n hf
        cases h
        refine ⟨hbb3, hbb4, hbb1, hbb2, hcc3, hcc4, hcc1, hcc2, ?_, ?_⟩ <;>
          dsimp only <;> omega

lemma parseLegacyCore_in_range (s : List Char) (d : ParsedStatus)
    (h : parseLegacyCore s = .ok (some d)) : ParsedInRange d := by
  simp only [parseLegacyCore] at h
  split at h
  · have h2 : (none : Option ParsedStatus) = some d := Except.ok.inj h
    cases h2
  · cases h12 : legacyByte s 12 with
    | error e => rw [h12] at h; simp [err_bind] at h
    | ok fanRaw =>
      rw [h12, ok_bind] at h
      cases h14 : legacyNibble s 14 with
      | error e => rw [h14] at h; simp [err_bind] at h
      | ok n14 =>
        rw [h14, ok_bind] at h
        cases h15 : legacyNibble s 15 with
        | error e => rw [h15] at h; simp [err_bind] at h
        | ok n15 =>
          rw [h15, ok_bind] at h
          cases h16 : legacyNibble s 16 with
          | error e => rw [h16] at h; simp [err_bind] at h
          | ok n16 =>
            rw [h16, ok_bind] at h
            cases h17 : legacyNibble s 17 with
            | error e => rw [h17] at h; simp [err_bind] at h
            | ok n17 =>
              rw [h17, ok_bind] at h
              cases h22 : legacyNibble s 22 with
              | error e => rw [h22] at h; simp [err_bind] at h
              | ok n22 =>
                rw [h22, ok_bind] at h
                cases h23 : legacyNibble s 23 with
                | error e => rw [h23] at h; simp [err_bind] at h
                | ok n23 =>
                  rw [h23, ok_bind] at h
                  simp only [pure] at h
                  cases h
                  unfold ParsedInRange
                  refine ⟨?_, ?_, ?_, ?_, ?_, ?_, ?_, ?_, ?_, ?_⟩ <;>
                    dsimp only <;> first
                    | omega
                    | (split <;> omega)

/-- C4: `BerbelDevice` construction clamps, for all integer inputs, the
four percentage fields into `[0,100]` and the fan level into `[0,4]`; in
particular `fan_level=7 → 4`, `fan_level=-1 → 0`,
`light_top_brightness=150 → 100`; and the values any parse path produces
(modern `parse_status`, legacy advertisement decode) already satisfy the
same ranges, so no operation returns an out-of-range instance. -/
theorem device_status_clamping (name address : String) (lto lbo post : Bool)
    (ltb lbb ltc lbc fl : ℤ) :
    DeviceInRange (mkBerbelDevice name address lto lbo ltb lbb ltc lbc fl post) ∧
    (mkBerbelDevice "" "" false false 0 0 0 0 7 false).fan_level = 4 ∧
    (mkBerbelDevice "" "" false false 0 0 0 0 (-1) false).fan_level = 0 ∧
    (mkBerbelDevice "" "" false false 150 0 0 0 0 false).light_top_brightness = 100 ∧
    (∀ s b c : List ℕ, ∀ p : ParsedStatus, (∀ x ∈ b, x < 256) → (∀ x ∈ c, x < 256) →
      parse_status s b c = .ok p → ParsedInRange p) ∧
    (∀ s : List Char, ∀ d : ParsedStatus, parse_legacy_manufacturer_data s = some d →
      ParsedInRange d) := by
  refine ⟨?_, by decide, by decide, by decide, parse_status_in_range, ?_⟩
  · unfold DeviceInRange mkBerbelDevice
    dsimp only
    omega
  · intro s d h
    unfold parse_legacy_manufacturer_data at h
    cases hc : parseLegacyCore s with
    | error e => rw [hc] at h; cases h
    | ok r =>
      rw [hc] at h
      cases h
      exact parseLegacyCore_in_range s d hc

/-- C4 witness: a concrete construction with every field out of range is
clamped. -/
theorem device_status_clamping_witness :
    DeviceInRange (mkBerbelDevice "k" "a" true false 150 (-3) 42 101 7 true) ∧
    (mkBerbelDevice "k" "a" true false 150 (-3) 42 101 7 true).light_top_brightness = 100 := by
  have h := device_status_clamping "k" "a" true false true 150 (-3) 42 101 7
  exact ⟨h.1, by decide⟩

lemma getD_set_self (l : List ℕ) (i v : ℕ) (h : i < l.length) :
    (l.set i v).getD i 0 = v := by
  rw [List.getD_eq_getElem?_getD, List.getElem?_set_self h]
  rfl

lemma getD_set_other (l : List ℕ) (i j v : ℕ) (h : i ≠ j) :
    (l.set i v).getD j 0 = l.getD j 0 := by
  rw [List.getD_eq_getElem?_getD, List.getElem?_set_ne h, ← List.getD_eq_getElem?_getD]

lemma scaleBrightness_range (p : ℤ) (h0 : 0 ≤ p) (h1 : p ≤ 100) :
    0 ≤ scaleBrightness p ∧ scaleBrightness p ≤ 255 := by
  obtain ⟨n, rfl⟩ : ∃ n : ℕ, p = (n : ℤ) := ⟨p.toNat, (Int.toNat_of_nonneg h0).symm⟩
  have hn : n < 101 := by exact_mod_cast Int.lt_add_one_iff.mpr h1
  rw [scaleBrightness_char n hn]
  constructor
  · exact Int.ofNat_nonneg _
  · have : (if n = 100 then 254 else 51 * n / 20) ≤ 255 := by
      split
      · omega
      · have : 51 * n / 20 ≤ 51 * 100 / 20 := Nat.div_le_div_right (by omega)
        omega
    exact_mod_cast this

lemma create_cmd_some_some (t b : ℤ) (ht : 0 ≤ t ∧ t ≤ 255) (hb : 0 ≤ b ∧ b ≤ 255) :
    create_light_brightness_command (some t) (some b) =
      .ok ((BRIGHTNESS_TEMPLATE.set 5 t.toNat).set 4 b.toNat) := by
  simp only [create_light_brightness_command, applyBrightnessByte, if_pos ht, if_pos hb,
    pure_bind_except]
  rfl

lemma create_cmd_some_none (t : ℤ) (ht : 0 ≤ t ∧ t ≤ 255) :
    create_light_brightness_command (some t) none = .ok (BRIGHTNESS_TEMPLATE.set 5 t.toNat) := by
  simp only [create_light_brightness_command, applyBrightnessByte, if_pos ht, pure_bind_except]
  rfl

lemma create_cmd_none_some (b : ℤ) (hb : 0 ≤ b ∧ b ≤ 255) :
    create_light_brightness_command none (some b) = .ok (BRIGHTNESS_TEMPLATE.set 4 b.toNat) := by
  simp only [create_light_brightness_command, applyBrightnessByte, if_pos hb, pure_bind_except]
  rfl

lemma create_cmd_none_none :
    create_light_brightness_command none none = .ok BRIGHTNESS_TEMPLATE := rfl

/-- C1 (amended): a percentage outside `[0,100]` raises `ValueError` and
no frame is produced; otherwise the result is the 31-byte template frame
with byte 5 set to the scaled top percentage and byte 4 to the scaled
bottom percentage (when given), every other byte equal to the template.
The scaling is the truncation `int(percentage * 2.55)` - equal to
`⌊51p/20⌋` for `p ≤ 99` and to `254` at `p = 100` - not
`round(percentage * 2.55)` as the claim states. -/
theorem create_brightness_from_percentage_spec :
    (∀ p : ℤ, ∀ bp : Option ℤ, ¬(0 ≤ p ∧ p ≤ 100) →
      create_light_brightness_command_from_percentage (some p) bp =
        .error (.valueError "top_percentage must be between 0 and 100")) ∧
    (∀ tp : Option ℤ, (∀ q ∈ tp, 0 ≤ q ∧ q ≤ 100) → ∀ p : ℤ, ¬(0 ≤ p ∧ p ≤ 100) →
      create_light_brightness_command_from_percentage tp (some p) =
        .error (.valueError "bottom_percentage must be between 0 and 100")) ∧
    (∀ tp bp : Option ℤ, (∀ q ∈ tp, 0 ≤ q ∧ q ≤ 100) → (∀ q ∈ bp, 0 ≤ q ∧ q ≤ 100) →
      ∃ f : List ℕ,
        create_light_brightness_command_from_percentage tp bp = .ok f ∧
        f.length = 31 ∧
        f.getD 5 0 = (match tp with
          | some p => (scaleBrightness p).toNat
          | none => BRIGHTNESS_TEMPLATE.getD 5 0) ∧
        f.getD 4 0 = (match bp with
          | some p => (scaleBrightness p).toNat
          | none => BRIGHTNESS_TEMPLATE.getD 4 0) ∧
        (∀ i : ℕ, i ≠ 4 → i ≠ 5 → f.getD i 0 = BRIGHTNESS_TEMPLATE.getD i 0)) ∧
    (∀ p : ℕ, p ≤ 100 →
      scaleBrightness (p : ℤ) = ((if p = 100 then 254 else 51 * p / 20 : ℕ) : ℤ)) := by
  have hT : BRIGHTNESS_TEMPLATE.length = 31 := by decide
  refine ⟨?_, ?_, ?_, fun p hp => scaleBrightness_char p (by omega)⟩
  · intro p bp hp
    simp only [create_light_brightness_command_from_percentage, scalePercentage]
    rw [if_neg hp]
    rfl
  · intro tp htp p hp
    cases tp with
    | none =>
      simp only [create_light_brightness_command_from_percentage, scalePercentage,
        pure_bind_except]
      rw [if_neg hp]
      rfl
    | some q =>
      have hq := htp q rfl
      simp only [create_light_brightness_command_from_percentage, scalePercentage,
        if_pos hq, pure_bind_except]
      rw [if_neg hp]
      rfl
  · intro tp bp htp hbp
    cases tp with
    | none =>
      cases bp with
      | none =>
        refine ⟨BRIGHTNESS_TEMPLATE, ?_, hT, rfl, rfl, fun i _ _ => rfl⟩
        simp only [create_light_brightness_command_from_percentage, scalePercentage,
          pure_bind_except]
        exact create_cmd_none_none
      | some q =>
        have hq := hbp q rfl
        have hr := scaleBrightness_range q hq.1 hq.2
        refine ⟨BRIGHTNESS_TEMPLATE.set 4 (scaleBrightness q).toNat, ?_, ?_, ?_, ?_, ?_⟩
        · simp only [create_light_brightness_command_from_percentage, scalePercentage,
            if_pos hq, pure_bind_except]
          exact create_cmd_none_some _ ⟨hr.1, hr.2⟩
        · rw [List.length_set, hT]
        · exact getD_set_other _ 4 5 _ (by omega)
        · exact getD_set_self _ 4 _ (by rw [hT]; omega)
        · intro i hi4 hi5
          exact getD_set_other _ 4 i _ (fun he => hi4 he.symm)
    | some q =>
      have hq := htp q rfl
      have hr := scaleBrightness_range q hq.1 hq.2
      cases bp with
      | none =>
        refine ⟨BRIGHTNESS_TEMPLATE.set 5 (scaleBrightness q).toNat, ?_, ?_, ?_, ?_, ?_⟩
        · simp only [create_light_brightness_command_from_percentage, scalePercentage,
            if_pos hq, pure_bind_except]
          exact create_cmd_some_none _ ⟨hr.1, hr.2⟩
        · rw [List.length_set, hT]
        · exact getD_set_self _ 5 _ (by rw [hT]; omega)
        · exact getD_set_other _ 5 4 _ (by omega)
        · intro i hi4 hi5
          exact getD_set_other _ 5 i _ (fun he => hi5 he.symm)
      | some r =>
        have hrq := hbp r rfl
        have hrr := scaleBrightness_range r hrq.1 hrq.2
        refine ⟨(BRIGHTNESS_TEMPLATE.set 5 (scaleBrightness q).toNat).set 4
          (scaleBrightness r).toNat, ?_, ?_, ?_, ?_, ?_⟩
        · simp only [create_light_brightness_command_from_percentage, scalePercentage,
            if_pos hq, if_pos hrq, pure_bind_except]
          exact create_cmd_some_some _ _ ⟨hr.1, hr.2⟩ ⟨hrr.1, hrr.2⟩
        · rw [List.length_set, List.length_set, hT]
        · rw [getD_set_other _ 4 5 _ (by omega)]
          exact getD_set_self _ 5 _ (by rw [hT]; omega)
        · exact getD_set_self _ 4 _ (by rw [List.length_set, hT]; omega)
        · intro i hi4 hi5
          rw [getD_set_other _ 4 i _ (fun he => hi4 he.symm)]
          exact getD_set_other _ 5 i _ (fun he => hi5 he.symm)

/-- C1 witness: 101% is rejected; at top 40% / bottom 20% the frame
carries bytes 102 and 51. -/
theorem create_brightness_from_percentage_spec_witness :
    create_light_brightness_command_from_percentage (some 101) none =
      .error (.valueError "top_percentage must be between 0 and 100") ∧
    ∃ f : List ℕ, create_light_brightness_command_from_percentage (some 40) (some 20) = .ok f ∧
      f.getD 5 0 = 102 ∧ f.getD 4 0 = 51 := by
  have h1 := create_brightness_from_percentage_spec.1 101 none (by omega)
  obtain ⟨f, hf, _, h5, h4, _⟩ := create_brightness_from_percentage_spec.2.2.1 (some 40) (some 20)
    (by intro q hq; cases hq; omega) (by intro q hq; cases hq; omega)
  have hs40 : scaleBrightness (40 : ℤ) = 102 := by
    have h := create_brightness_from_percentage_spec.2.2.2 40 (by omega)
    norm_num at h
    exact h
  have hs20 : scaleBrightness (20 : ℤ) = 51 := by
    have h := create_brightness_from_percentage_spec.2.2.2 20 (by omega)
    norm_num at h
    exact h
  refine ⟨h1, f, hf, ?_, ?_⟩
  · rw [h5]
    show (scaleBrightness (40 : ℤ)).toNat = 102
    rw [hs40]
    rfl
  · rw [h4]
    show (scaleBrightness (20 : ℤ)).toNat = 51
    rw [hs20]
    rfl

set_option maxRecDepth 40000 in
/-- C1 counterexample: at `topPercent = 100` the code writes byte 254
(the binary64 product `100 * 2.55 = 254.99999999999997` truncated by
`int()`), whereas the claim's `round(100 * 2.55) = 255` - an exact
integer, on which every rounding convention agrees. -/
theorem create_brightness_round_counterexample :
    create_light_brightness_command_from_percentage (some 100) none =
      .ok (BRIGHTNESS_TEMPLATE.set 5 254) ∧
    specRoundScale 100 = 255 := by
  constructor
  · rfl
  · rfl

lemma applyBrightnessByte_length (pos : ℕ) (msg : String) (cmd f : List ℕ) (v : Option ℤ)
    (h : applyBrightnessByte pos msg cmd v = .ok f) : f.length = cmd.length := by
  cases v with
  | none =>
    have := Except.ok.inj h
    rw [← this]
  | some t =>
    simp only [applyBrightnessByte] at h
    split at h
    · have := Except.ok.inj h
      rw [← this, List.length_set]
    · cases h

lemma create_cmd_length (tb bb : Option ℤ) (f : List ℕ)
    (h : create_light_brightness_command tb bb = .ok f) : f.length = 31 := by
  simp only [create_light_brightness_command] at h
  cases h1 : applyBrightnessByte 5 "top_brightness must be between 0 and 255"
      BRIGHTNESS_TEMPLATE tb with
  | error e => rw [h1] at h; simp [err_bind] at h
  | ok c₁ =>
    rw [h1, ok_bind] at h
    have l1 := applyBrightnessByte_length _ _ _ _ _ h1
    have l2 := applyBrightnessByte_length _ _ _ _ _ h
    rw [l2, l1]
    decide

lemma create_from_pct_length (tp bp : Option ℤ) (f : List ℕ)
    (h : create_light_brightness_command_from_percentage tp bp = .ok f) : f.length = 31 := by
  simp only [create_light_brightness_command_from_percentage] at h
  cases h1 : scalePercentage "top_percentage must be between 0 and 100" tp with
  | error e => rw [h1] at h; simp [err_bind] at h
  | ok tb =>
    rw [h1, ok_bind] at h
    cases h2 : scalePercentage "bottom_percentage must be between 0 and 100" bp with
    | error e => rw [h2] at h; simp [err_bind] at h
    | ok bb =>
      rw [h2, ok_bind] at h
      exact create_cmd_length tb bb f h

set_option maxRecDepth 40000 in
/-- C7 counterexample: `set_light_top_color` on a 3-byte colors
characteristic writes the 3-byte frame back without calling
`validate_command_length`, so not every write path of the client is
length-validated, and a transmitted frame need not be 31 bytes. -/
theorem validate_before_write_counterexample :
    setLightTopColorWrites 50 [1, 2, 3] = .ok [⟨[1, 2, 3], false⟩] ∧
    validate_command_length [1, 2, 3] = .error (.valueError "Command must be 31 bytes long") := by
  constructor
  · rfl
  · rfl

/-- C7 (amended): `validate_command_length` raises `ValueError` exactly
for frames whose length differs from 31 (in particular lengths 0, 1, 30,
32, 255); `_execute_command` and `_execute_command_with_status` validate
before transmission; but the dedicated brightness path
(`set_light_top_brightness`) writes its frame without calling
`validate_command_length` - the frame is nonetheless 31 bytes by
construction - and the colour read-modify-write path
(`set_light_top_color`) writes back a frame of whatever length was read,
unvalidated. -/
theorem validate_command_length_spec :
    (∀ cmd : List ℕ, validate_command_length cmd = .ok () ↔ cmd.length = 31) ∧
    (∀ n : ℕ, n ≠ 31 → validate_command_length (List.replicate n 0) =
      .error (.valueError "Command must be 31 bytes long")) ∧
    (∀ cmd : List ℕ, ∀ evs : List WriteEv, executeCommandWrites cmd = .ok evs →
      ∀ ev ∈ evs, ev.validatedBefore = true ∧ ev.frame.length = 31) ∧
    (∀ cmd : List ℕ, ∀ evs : List WriteEv, executeCommandWithStatusWrites cmd = .ok evs →
      ∀ ev ∈ evs, ev.validatedBefore = true ∧ ev.frame.length = 31) ∧
    (∀ p : ℤ, ∀ device : BerbelDevice, ∀ evs : List WriteEv,
      setLightTopBrightnessWrites p device = .ok evs →
      ∀ ev ∈ evs, ev.frame.length = 31 ∧ ev.validatedBefore = false) ∧
    (∀ p : ℤ, ∀ cur : List ℕ, ∀ evs : List WriteEv, setLightTopColorWrites p cur = .ok evs →
      ∀ ev ∈ evs, ev.frame.length = cur.length ∧ ev.validatedBefore = false) := by
  have hval : ∀ cmd : List ℕ, ∀ evs : List WriteEv,
      (do
        let _ ← validate_command_length cmd
        pure [(⟨cmd, true⟩ : WriteEv)] : Except PyError (List WriteEv)) = .ok evs →
      ∀ ev ∈ evs, ev.validatedBefore = true ∧ ev.frame.length = 31 := by
    intro cmd evs h ev hev
    by_cases hlen : cmd.length = 31
    · rw [validate_command_length, if_pos hlen] at h
      simp only [ok_bind] at h
      have := Except.ok.inj h
      subst this
      simp only [List.mem_singleton] at hev
      subst hev
      exact ⟨rfl, hlen⟩
    · rw [validate_command_length, if_neg hlen] at h
      simp [err_bind] at h
  refine ⟨?_, ?_, hval, hval, ?_, ?_⟩
  · intro cmd
    constructor
    · intro h
      by_contra hne
      rw [validate_command_length, if_neg hne] at h
      cases h
    · intro h
      rw [validate_command_length, if_pos h]
  · intro n hn
    rw [validate_command_length, if_neg (by simpa using hn)]
  · intro p device evs h ev hev
    simp only [setLightTopBrightnessWrites] at h
    split at h
    · cases hc : create_light_brightness_command_from_percentage (some p)
          (some (if device.light_bottom_on = true then device.light_bottom_brightness else 0)) with
      | error e => rw [hc] at h; simp [err_bind] at h
      | ok f =>
        rw [hc, ok_bind] at h
        have := Except.ok.inj h
        subst this
        simp only [List.mem_singleton] at hev
        subst hev
        exact ⟨create_from_pct_length _ _ _ hc, rfl⟩
    · cases h
  · intro p cur evs h ev hev
    simp only [setLightTopColorWrites] at h
    cases hf : setLightTopColorFrame p cur with
    | error e => rw [hf] at h; simp [err_bind] at h
    | ok f =>
      rw [hf, ok_bind] at h
      have := Except.ok.inj h
      subst this
      simp only [List.mem_singleton] at hev
      subst hev
      refine ⟨?_, rfl⟩
      simp only [setLightTopColorFrame] at hf
      split at hf
      · have := Except.ok.inj hf
        rw [← this]
        split
        · rw [List.length_set]
        · rfl
      · cases hf

/-- C7 witness: 30-byte and 255-byte frames are rejected. -/
theorem validate_command_length_spec_witness :
    validate_command_length (List.replicate 30 0) =
      .error (.valueError "Command must be 31 bytes long") ∧
    validate_command_length (List.replicate 255 0) =
      .error (.valueError "Command must be 31 bytes long") := by
  exact ⟨validate_command_length_spec.2.1 30 (by norm_num),
    validate_command_length_spec.2.1 255 (by norm_num)⟩

lemma colorByte_toNat (p : ℤ) (h0 : 0 ≤ p) (h1 : p ≤ 100) :
    (colorByte p).toNat = 255 * p.toNat / 100 := by
  obtain ⟨n, rfl⟩ : ∃ n : ℕ, p = (n : ℤ) := ⟨p.toNat, (Int.toNat_of_nonneg h0).symm⟩
  have hn : n < 101 := by exact_mod_cast Int.lt_add_one_iff.mpr h1
  rw [colorByte_char n hn]
  simp only [Int.toNat_natCast]

/-- C9: each colour-set operation writes back the read frame with only the
target byte changed to `int(p * 255 / 100)` (= `⌊255p/100⌋` on the
validated domain) - offset 7 for top (frame length at least 8), offset 6
for bottom (length at least 7), both for the combined operation (length
at least 8) - and, when the read frame is too short to contain the target
offset, the frame is written back entirely unchanged rather than
raising. -/
theorem color_read_modify_write (p : ℤ) (cur : List ℕ) (h0 : 0 ≤ p) (h1 : p ≤ 100) :
    (∃ f, setLightTopColorFrame p cur = .ok f ∧ f.length = cur.length ∧
      (∀ i : ℕ, i ≠ 7 → f.getD i 0 = cur.getD i 0) ∧
      (7 < cur.length → f.getD 7 0 = 255 * p.toNat / 100) ∧
      (cur.length ≤ 7 → f = cur)) ∧
    (∃ f, setLightBottomColorFrame p cur = .ok f ∧ f.length = cur.length ∧
      (∀ i : ℕ, i ≠ 6 → f.getD i 0 = cur.getD i 0) ∧
      (6 < cur.length → f.getD 6 0 = 255 * p.toNat / 100) ∧
      (cur.length ≤ 6 → f = cur)) ∧
    (∀ q : ℤ, 0 ≤ q → q ≤ 100 →
      ∃ f, setBothLightsColorFrame p q cur = .ok f ∧ f.length = cur.length ∧
        (∀ i : ℕ, i ≠ 6 → i ≠ 7 → f.getD i 0 = cur.getD i 0) ∧
        (7 < cur.length →
          f.getD 7 0 = 255 * p.toNat / 100 ∧ f.getD 6 0 = 255 * q.toNat / 100) ∧
        (cur.length ≤ 7 → f = cur)) ∧
    (∀ n : ℕ, n ≤ 100 → colorByte (n : ℤ) = ((255 * n / 100 : ℕ) : ℤ)) := by
  refine ⟨?_, ?_, ?_, fun n hn => colorByte_char n (by omega)⟩
  · by_cases hlen : 7 < cur.length
    · refine ⟨cur.set 7 (colorByte p).toNat, ?_, List.length_set .., ?_, ?_, ?_⟩
      · simp only [setLightTopColorFrame, COLOR_TOP_BYTE]
        rw [if_pos ⟨h0, h1⟩, if_pos hlen]
      · intro i hi
        exact getD_set_other _ 7 i _ (fun he => hi he.symm)
      · intro _
        rw [getD_set_self _ 7 _ hlen, colorByte_toNat p h0 h1]
      · intro h
        omega
    · refine ⟨cur, ?_, rfl, fun i _ => rfl, fun h => absurd h hlen, fun _ => rfl⟩
      simp only [setLightTopColorFrame, COLOR_TOP_BYTE]
      rw [if_pos ⟨h0, h1⟩, if_neg hlen]
  · by_cases hlen : 6 < cur.length
    · refine ⟨cur.set 6 (colorByte p).toNat, ?_, List.length_set .., ?_, ?_, ?_⟩
      · simp only [setLightBottomColorFrame, COLOR_BOTTOM_BYTE]
        rw [if_pos ⟨h0, h1⟩, if_pos hlen]
      · intro i hi
        exact getD_set_other _ 6 i _ (fun he => hi he.symm)
      · intro _
        rw [getD_set_self _ 6 _ hlen, colorByte_toNat p h0 h1]
      · intro h
        omega
    · refine ⟨cur, ?_, rfl, fun i _ => rfl, fun h => absurd h hlen, fun _ => rfl⟩
      simp only [setLightBottomColorFrame, COLOR_BOTTOM_BYTE]
      rw [if_pos ⟨h0, h1⟩, if_neg hlen]
  · intro q hq0 hq1
    by_cases hlen : 7 < cur.length
    · refine ⟨(cur.set 6 (colorByte q).toNat).set 7 (colorByte p).toNat, ?_, ?_, ?_, ?_, ?_⟩
      · simp only [setBothLightsColorFrame, COLOR_BOTTOM_BYTE, COLOR_TOP_BYTE]
        rw [if_pos ⟨h0, h1, hq0, hq1⟩]
        rw [if_pos (by simpa using hlen)]
      · rw [List.length_set, List.length_set]
      · intro i hi6 hi7
        rw [getD_set_other _ 7 i _ (fun he => hi7 he.symm)]
        exact getD_set_other _ 6 i _ (fun he => hi6 he.symm)
      · intro _
        constructor
        · rw [getD_set_self _ 7 _ (by rw [List.length_set]; omega), colorByte_toNat p h0 h1]
        · rw [getD_set_other _ 7 6 _ (by omega), getD_set_self _ 6 _ (by omega),
            colorByte_toNat q hq0 hq1]
      · intro h
        omega
    · refine ⟨cur, ?_, rfl, fun i _ _ => rfl, fun h => absurd h hlen, fun _ => rfl⟩
      simp only [setBothLightsColorFrame, COLOR_BOTTOM_BYTE, COLOR_TOP_BYTE]
      rw [if_pos ⟨h0, h1, hq0, hq1⟩]
      rw [if_neg (by simpa using hlen)]

/-- C9 witness: 50% on a 9-byte frame sets byte 7 to 127; on a 3-byte
frame the operation degrades to an unchanged write. -/
theorem color_read_modify_write_witness :
    setLightTopColorFrame 50 [0, 1, 2] = .ok [0, 1, 2] ∧
    (∃ f, setLightTopColorFrame 50 [0, 1, 2, 3, 4, 5, 6, 7, 8] = .ok f ∧ f.getD 7 0 = 127) := by
  obtain ⟨g, hg, _, _, _, hshort⟩ := (color_read_modify_write 50 [0, 1, 2] (by omega) (by omega)).1
  obtain ⟨f, hf, _, _, h7, _⟩ :=
    (color_read_modify_write 50 [0, 1, 2, 3, 4, 5, 6, 7, 8] (by omega) (by omega)).1
  refine ⟨?_, f, hf, ?_⟩
  · rw [hg, hshort (by norm_num)]
  · have h77 := h7 (by norm_num)
    rw [h77]
    rfl

/-- C3: an acquire for the address of the live, valid, not
pending-teardown connection reuses it (no transport connect; the idle
timer is re-armed for the full window); an acquire while a connection to
a different address (or an invalid one) is held first tears that
connection down and only then connects, the teardown event strictly
preceding the connect event; the state after any acquire holds exactly
the returned connection (at most one live connection); and teardown
outcomes of the transport never change the manager's behaviour (errors
during teardown are not propagated). -/
theorem connection_manager_acquire (dres : Except ℕ Unit) (st : ConnState) (c : Conn)
    (devAddr : String) (newId now : ℕ) :
    (st.active = some c → c.isConnected = true → c.addr = devAddr →
      st.disconnectPending = false →
      ensureConnection dres st devAddr newId now =
        (c, { st with timerDeadline := some (now + CONNECTION_TIMEOUT) },
         [.armTimer (now + CONNECTION_TIMEOUT)])) ∧
    (st.active = some c → (c.addr ≠ devAddr ∨ c.isConnected = false) →
      ensureConnection dres st devAddr newId now =
        (⟨newId, devAddr, true⟩,
         ⟨some ⟨newId, devAddr, true⟩, false, some (now + CONNECTION_TIMEOUT)⟩,
         [.teardown, .connect devAddr, .armTimer (now + CONNECTION_TIMEOUT)])) ∧
    ((ensureConnection dres st devAddr newId now).2.1.active =
      some (ensureConnection dres st devAddr newId now).1) ∧
    (disconnectInternal dres st = disconnectInternal (.ok ()) st) := by
  refine ⟨?_, ?_, ?_, ?_⟩
  · intro hact hconn haddr hpend
    simp only [ensureConnection, hact, scheduleDisconnect]
    rw [if_pos ⟨hconn, haddr, hpend⟩]
  · intro hact hne
    simp only [ensureConnection, hact]
    rw [if_neg (by rcases hne with h | h <;> rintro ⟨h1, h2, h3⟩ <;> simp_all)]
    simp only [disconnectInternal, hact, establishConnection, scheduleDisconnect]
    cases dres <;> rfl
  · cases hact : st.active with
    | none => simp only [ensureConnection, hact, establishConnection, scheduleDisconnect]
    | some c' =>
      simp only [ensureConnection, hact]
      by_cases hcond : c'.isConnected = true ∧ c'.addr = devAddr ∧ st.disconnectPending = false
      · rw [if_pos hcond]
        simp only [scheduleDisconnect, hact]
      · rw [if_neg hcond]
        simp only [establishConnection, scheduleDisconnect]
  · cases hact : st.active with
    | none => simp only [disconnectInternal, hact]
    | some c' => simp only [disconnectInternal, hact]; cases dres <;> rfl

/-- C3 witness: a same-address acquire reuses client 3 and re-arms the
timer; a different-address acquire (with a failing transport disconnect)
tears down and reconnects. -/
theorem connection_manager_acquire_witness :
    ensureConnection (.ok ()) ⟨some ⟨3, "AA", true⟩, false, some 5⟩ "AA" 9 30 =
      (⟨3, "AA", true⟩, ⟨some ⟨3, "AA", true⟩, false, some 50⟩, [.armTimer 50]) ∧
    ensureConnection (.error 1) ⟨some ⟨3, "BB", true⟩, false, some 5⟩ "AA" 9 30 =
      (⟨9, "AA", true⟩, ⟨some ⟨9, "AA", true⟩, false, some 50⟩,
       [.teardown, .connect "AA", .armTimer 50]) := by
  constructor
  · exact (connection_manager_acquire (.ok ()) ⟨some ⟨3, "AA", true⟩, false, some 5⟩
      ⟨3, "AA", true⟩ "AA" 9 30).1 rfl rfl rfl rfl
  · exact (connection_manager_acquire (.error 1) ⟨some ⟨3, "BB", true⟩, false, some 5⟩
      ⟨3, "BB", true⟩ "AA" 9 30).2.1 rfl (Or.inl (by decide))

lemma updateLoop_congr (inputs inputs' : ℕ → AttemptInput) (devName devAddr : String) :
    ∀ rem attempt : ℕ, ∀ st : ConnState, ∀ le : Option PyError,
      (∀ i : ℕ, attempt ≤ i → i < attempt + rem → inputs i = inputs' i) →
      updateLoop inputs devName devAddr rem attempt st le =
        updateLoop inputs' devName devAddr rem attempt st le := by
  intro rem
  induction rem with
  | zero => intro attempt st le _; rfl
  | succ n ih =>
    intro attempt st le hagree
    have h0 : inputs attempt = inputs' attempt := hagree attempt (le_refl attempt) (by omega)
    have hrec : ∀ st' : ConnState, ∀ le' : Option PyError,
        updateLoop inputs devName devAddr n (attempt + 1) st' le' =
          updateLoop inputs' devName devAddr n (attempt + 1) st' le' := by
      intro st' le'
      exact ih (attempt + 1) st' le' (fun i h1 h2 => hagree i (by omega) (by omega))
    cases hin : inputs' attempt with
    | transportErr code => simp only [updateLoop, h0, hin, hrec]
    | bufs s b c =>
      cases hp : parse_status s b c with
      | ok parsed => simp only [updateLoop, h0, hin, hp]
      | error pe => simp only [updateLoop, h0, hin, hp, hrec]
  

/-- C2: `update_device` on a modern peer: a first attempt that reads and
decodes successfully returns that attempt's status after a single
connect, for any attempt budget; in the retry scenario (attempt 1 raises
a transport error, attempt 2 succeeds) the second attempt's decoded
status is returned after exactly one teardown-then-reconnect cycle with a
1-unit sleep between attempts; when both attempts fail with transport
errors the last error is re-raised after a final teardown; and the loop
never consults attempts beyond `max_retries` (inputs agreeing on attempts
`1..max_retries` give identical behaviour). -/
theorem update_device_retry_policy (devName devAddr : String) :
    (∀ k : ℕ, ∀ inputs : ℕ → AttemptInput, ∀ s b c : List ℕ, ∀ parsed : ParsedStatus,
      inputs 1 = .bufs s b c → parse_status s b c = .ok parsed →
      update_device devName devAddr (k + 1) inputs initState =
        (.ok (applyParsed (defaultDevice devName devAddr) parsed),
         ⟨some ⟨1, devAddr, true⟩, false, some 21⟩,
         [.connect devAddr, .armTimer 21])) ∧
    (∀ inputs : ℕ → AttemptInput, ∀ e : ℕ, ∀ s b c : List ℕ, ∀ parsed : ParsedStatus,
      inputs 1 = .transportErr e → inputs 2 = .bufs s b c → parse_status s b c = .ok parsed →
      update_device devName devAddr 2 inputs initState =
        (.ok (applyParsed (defaultDevice devName devAddr) parsed),
         ⟨some ⟨2, devAddr, true⟩, false, some 22⟩,
         [.connect devAddr, .armTimer 21, .teardown, .sleep 1,
          .connect devAddr, .armTimer 22])) ∧
    (∀ inputs : ℕ → AttemptInput, ∀ e₁ e₂ : ℕ,
      inputs 1 = .transportErr e₁ → inputs 2 = .transportErr e₂ →
      update_device devName devAddr 2 inputs initState =
        (.error (.bleakError e₂), ⟨none, false, none⟩,
         [.connect devAddr, .armTimer 21, .teardown, .sleep 1,
          .connect devAddr, .armTimer 22, .teardown])) ∧
    (∀ mr : ℕ, ∀ st₀ : ConnState, ∀ inputs inputs' : ℕ → AttemptInput,
      (∀ i : ℕ, 1 ≤ i → i ≤ mr → inputs i = inputs' i) →
      update_device devName devAddr mr inputs st₀ =
        update_device devName devAddr mr inputs' st₀) := by
  refine ⟨?_, ?_, ?_, ?_⟩
  · intro k inputs s b c parsed h1 hp
    simp only [update_device, updateLoop, h1, hp, initState, ensureConnection,
      establishConnection, scheduleDisconnect, disconnectInternal, CONNECTION_TIMEOUT]
    rfl
  · intro inputs e s b c parsed h1 h2 hp
    simp only [update_device, updateLoop, h1, h2, hp, initState, ensureConnection,
      establishConnection, scheduleDisconnect, disconnectInternal, CONNECTION_TIMEOUT]
    rfl
  · intro inputs e₁ e₂ h1 h2
    simp only [update_device, updateLoop, h1, h2, initState, ensureConnection,
      establishConnection, scheduleDisconnect, disconnectInternal, CONNECTION_TIMEOUT]
    rfl
  · intro mr st₀ inputs inputs' hagree
    exact updateLoop_congr inputs inputs' devName devAddr mr 1 st₀ none
      (fun i hi1 hi2 => hagree i hi1 (by omega))

set_option maxRecDepth 40000 in
/-- C2 witness: the retry scenario on concrete buffers: transport error
on attempt 1, decode of fan level 1 / brightness (50, 74) on attempt
2. -/
theorem update_device_retry_policy_witness :
    update_device "hood" "AA:BB" 2
      (fun i => if i = 1 then .transportErr 7
        else .bufs [0x10, 0, 0, 0, 0, 0] [0, 0, 0, 0, 128, 191] [0, 0, 0, 0, 0, 0, 10, 20])
      initState =
      (.ok (applyParsed (defaultDevice "hood" "AA:BB") ⟨false, false, 74, 50, 7, 3, 1, false⟩),
       ⟨some ⟨2, "AA:BB", true⟩, false, some 22⟩,
       [.connect "AA:BB", .armTimer 21, .teardown, .sleep 1,
        .connect "AA:BB", .armTimer 22]) := by
  have hp : parse_status [0x10, 0, 0, 0, 0, 0] [0, 0, 0, 0, 128, 191] [0, 0, 0, 0, 0, 0, 10, 20] =
      .ok ⟨false, false, 74, 50, 7, 3, 1, false⟩ := by rfl
  exact (update_device_retry_policy "hood" "AA:BB").2.1 _ 7 _ _ _ _ rfl rfl hp

lemma hexVal_hexDigitChar : ∀ n : ℕ, n < 16 → hexVal (hexDigitChar n) = some n := by decide

lemma bytesToHex_cons (b : ℕ) (t : List ℕ) :
    bytesToHex (b :: t) = hexDigitChar (b / 16 % 16) :: hexDigitChar (b % 16) :: bytesToHex t := by
  simp [bytesToHex, byteToHex]

lemma bytesToHex_length (data : List ℕ) : (bytesToHex data).length = 2 * data.length := by
  induction data with
  | nil => rfl
  | cons b t ih => rw [bytesToHex_cons]; simp [ih]; omega

lemma bytesToHex_getD (data : List ℕ) (i : ℕ) (hi : i < data.length) :
    (bytesToHex data).getD (2 * i) '0' = hexDigitChar (data.getD i 0 / 16 % 16) ∧
    (bytesToHex data).getD (2 * i + 1) '0' = hexDigitChar (data.getD i 0 % 16) := by
  induction data generalizing i with
  | nil => simp at hi
  | cons b t ih =>
    rw [bytesToHex_cons]
    cases i with
    | zero => simp
    | succ j =>
      have h2 : 2 * (j + 1) = 2 * j + 1 + 1 := by ring
      rw [h2]
      simp only [List.getD_cons_succ, List.getD_cons_succ]
      exact ih j (by simpa using hi)

lemma legacyNibble_even (data : List ℕ) (h256 : ∀ x ∈ data, x < 256) (i : ℕ) :
    legacyNibble (bytesToHex data) (2 * i) =
      .ok (if i < data.length then data.getD i 0 / 16 else 0) := by
  by_cases hi : i < data.length
  · have hd : data.getD i 0 < 256 := getD_lt_of_mem h256 hi
    rw [legacyNibble, if_neg (by rw [bytesToHex_length]; omega)]
    rw [(bytesToHex_getD data i hi).1]
    rw [hexCharVal, hexVal_hexDigitChar _ (by omega)]
    rw [if_pos hi]
    have : data.getD i 0 / 16 % 16 = data.getD i 0 / 16 :=
      Nat.mod_eq_of_lt (by omega)
    rw [this]
  · rw [legacyNibble, if_pos (by rw [bytesToHex_length]; omega), if_neg hi]

lemma legacyNibble_odd (data : List ℕ) (h256 : ∀ x ∈ data, x < 256) (i : ℕ) :
    legacyNibble (bytesToHex data) (2 * i + 1) =
      .ok (if i < data.length then data.getD i 0 % 16 else 0) := by
  by_cases hi : i < data.length
  · have hd : data.getD i 0 < 256 := getD_lt_of_mem h256 hi
    rw [legacyNibble, if_neg (by rw [bytesToHex_length]; omega)]
    rw [(bytesToHex_getD data i hi).2]
    rw [hexCharVal, hexVal_hexDigitChar _ (by omega)]
    rw [if_pos hi]
  · rw [legacyNibble, if_pos (by rw [bytesToHex_length]; omega), if_neg hi]

lemma legacyByte_bytes (data : List ℕ) (h256 : ∀ x ∈ data, x < 256) (j : ℕ)
    (hj : j < data.length) :
    legacyByte (bytesToHex data) (2 * j) = .ok (data.getD j 0) := by
  have hd : data.getD j 0 < 256 := getD_lt_of_mem h256 hj
  rw [legacyByte]
  rw [if_neg (by rw [bytesToHex_length]; omega)]
  rw [(bytesToHex_getD data j hj).1, (bytesToHex_getD data j hj).2]
  rw [hexCharVal, hexVal_hexDigitChar _ (by omega), hexCharVal,
    hexVal_hexDigitChar _ (by omega)]
  simp only [ok_bind]
  have : 16 * (data.getD j 0 / 16 % 16) + data.getD j 0 % 16 = data.getD j 0 := by
    have h1 : data.getD j 0 / 16 % 16 = data.getD j 0 / 16 := Nat.mod_eq_of_lt (by omega)
    rw [h1]
    omega
  rw [this]
  rfl

lemma pure_eq_ok {α : Type} (a : α) : (pure a : Except PyError α) = .ok a := rfl

lemma land_one_mod16 (x : ℕ) : ((x % 16).land 1 != 0) = (x % 2 == 1) := by
  rw [show (x % 16).land 1 = x % 16 % 2 from Nat.and_one_is_mod (x % 16)]
  rw [Nat.mod_mod_of_dvd x (by norm_num)]
  rcases Nat.mod_two_eq_zero_or_one x with h | h <;> rw [h] <;> rfl

/-- C8: a legacy advertisement payload of at least 9 bytes (18 hex
characters) decodes with both light flags equal to
`activeIllumination OR effectLight`, the fan level capped to 3, and all
four percentages 0; any payload shorter than 18 hex characters yields
`None`; and a malformed payload (non-hex character at a read position)
also yields `None` instead of raising. -/
theorem legacy_advertisement_decode :
    (∀ data : List ℕ, (∀ x ∈ data, x < 256) → 9 ≤ data.length →
      parse_legacy_from_bytes data = some
        { light_top_on := (data.getD 8 0 % 2 == 1) || (data.getD 11 0 % 2 == 1)
          light_bottom_on := (data.getD 8 0 % 2 == 1) || (data.getD 11 0 % 2 == 1)
          light_top_brightness := 0
          light_bottom_brightness := 0
          light_top_color := 0
          light_bottom_color := 0
          fan_level := ((if 3 < data.getD 6 0 then 3 else data.getD 6 0 : ℕ) : ℤ)
          fan_postrun_active := ((data.getD 8 0 % 16).land 2 != 0) }) ∧
    (∀ s : List Char, s.length < 18 → parse_legacy_manufacturer_data s = none) ∧
    (∀ data : List ℕ, data.length < 9 → parse_legacy_from_bytes data = none) ∧
    (∀ s : List Char, 18 ≤ s.length → hexVal (s.getD 12 '0') = none →
      parse_legacy_manufacturer_data s = none) := by
  refine ⟨?_, ?_, ?_, ?_⟩
  · intro data h256 hlen
    have h12 : legacyByte (bytesToHex data) 12 = .ok (data.getD 6 0) :=
      legacyByte_bytes data h256 6 (by omega)
    have h14 : legacyNibble (bytesToHex data) 14 = .ok (data.getD 7 0 / 16) := by
      have h := legacyNibble_even data h256 7
      rw [if_pos (show 7 < data.length by omega)] at h
      exact h
    have h15 : legacyNibble (bytesToHex data) 15 = .ok (data.getD 7 0 % 16) := by
      have h := legacyNibble_odd data h256 7
      rw [if_pos (show 7 < data.length by omega)] at h
      exact h
    have h16 : legacyNibble (bytesToHex data) 16 = .ok (data.getD 8 0 / 16) := by
      have h := legacyNibble_even data h256 8
      rw [if_pos (show 8 < data.length by omega)] at h
      exact h
    have h17 : legacyNibble (bytesToHex data) 17 = .ok (data.getD 8 0 % 16) := by
      have h := legacyNibble_odd data h256 8
      rw [if_pos (show 8 < data.length by omega)] at h
      exact h
    have h22 : legacyNibble (bytesToHex data) 22 =
        .ok (if 11 < data.length then data.getD 11 0 / 16 else 0) :=
      legacyNibble_even data h256 11
    have h23 : legacyNibble (bytesToHex data) 23 =
        .ok (if 11 < data.length then data.getD 11 0 % 16 else 0) :=
      legacyNibble_odd data h256 11
    unfold parse_legacy_from_bytes parse_legacy_manufacturer_data
    simp only [parseLegacyCore]
    rw [if_neg (by rw [bytesToHex_length]; omega)]
    simp only [h12, h14, h15, h16, h17, h22, h23, ok_bind, pure_eq_ok]
    simp only [Option.some.injEq, ParsedStatus.mk.injEq]
    have hflag : (((data.getD 8 0 % 16).land 1 != 0) ||
        (((if 11 < data.length then data.getD 11 0 % 16 else 0).land 1) != 0)) =
        ((data.getD 8 0 % 2 == 1) || (data.getD 11 0 % 2 == 1)) := by
      by_cases h11 : 11 < data.length
      · rw [if_pos h11, land_one_mod16, land_one_mod16]
      · rw [if_neg h11, land_one_mod16]
        have hd11 : data.getD 11 0 = 0 := List.getD_eq_default _ _ (by omega : data.length ≤ 11)
        rw [hd11]
        rfl
    exact ⟨hflag, hflag, trivial, trivial, trivial, trivial, trivial, trivial⟩
  · intro s hs
    unfold parse_legacy_manufacturer_data
    simp only [parseLegacyCore]
    rw [if_pos hs]
    rfl
  · intro data hd
    unfold parse_legacy_from_bytes parse_legacy_manufacturer_data
    simp only [parseLegacyCore]
    rw [if_pos (by rw [bytesToHex_length]; omega)]
    rfl
  · intro s hs hbad
    unfold parse_legacy_manufacturer_data
    simp only [parseLegacyCore]
    rw [if_neg (by omega)]
    rw [legacyByte, if_neg (by omega)]
    rw [hexCharVal, hbad]
    rfl

/-- C8 witness: a 12-byte payload with fan byte 9 (capped to 3) and the
illumination flag set; a 3-byte payload yields `None`. -/
theorem legacy_advertisement_decode_witness :
    parse_legacy_from_bytes [0, 0, 0, 0, 0, 0, 9, 0, 1, 0, 0, 0] = some
      { light_top_on := true, light_bottom_on := true,
        light_top_brightness := 0, light_bottom_brightness := 0,
        light_top_color := 0, light_bottom_color := 0,
        fan_level := 3, fan_postrun_active := false } ∧
    parse_legacy_from_bytes [1, 2, 3] = none := by
  have h1 := legacy_advertisement_decode.1 [0, 0, 0, 0, 0, 0, 9, 0, 1, 0, 0, 0]
    (by decide) (by norm_num)
  have h2 := legacy_advertisement_decode.2.2.1 [1, 2, 3] (by norm_num)
  refine ⟨?_, h2⟩
  rw [h1]
  rfl

end Berbel
